import Mathlib

/-!
Verification development for the RemoteSensingApp task-orchestration core.

The Python sources are shallowly embedded:
pure parameter handling becomes Lean functions on finite maps, the GUI
orchestrator state (`MainWindow.current_worker`) becomes an explicit state
record, and the task pipelines (`run_evaluation.py`,
`run_feature_extraction.py`) become state-passing functions over an oracle
that records, for each external collaborator call (directory creation,
raster loading, matrix plotting, pandas reads, ...), whether it returned
normally or raised and with which message.  The filesystem is threaded as
the list of file paths created so far.  `TaskResult` follows the shape
fixed by the data model (status, message, outputs, logs), matching every
construction site in the sources.
-/

/-- Status of a `TaskResult`.  The sources only ever construct
`status="success"` or `status="failure"`. -/
inductive TStatus where
  | success
  | failure
deriving DecidableEq, Repr

/-- Outcome value of one task execution.  Modelled from the spec:
`src/processing/task_result.py` is not among the sources; its field set
(status, message, outputs, logs) is fixed by the data-model section of the
spec and by every construction site in `run_evaluation.py` and
`run_feature_extraction.py`. -/
structure TaskResult where
  status : TStatus
  message : String
  outputs : List String
  logs : List String
deriving DecidableEq, Repr

/-- A Python dict with string keys, viewed as a finite partial map. -/
abbrev Dict (α : Type) : Type := String → Option α

/-- Semantics of Python `base.update(ov)` on the map view of a dict:
keys of `ov` win, other keys keep the value of `base`. -/
def dict_update {α : Type} (base ov : Dict α) : Dict α :=
  fun k =>
    match ov k with
    | some v => some v
    | none => base k

namespace MainWindow

/-- Per-family default parameter dicts held by the orchestrator's config,
read by the seven dispatch methods of `MainWindow`
(`src/gui/main_window.py`, lines 1102-1149). -/
structure Config (α : Type) where
  file_operation_params : Dict α
  image_processing_params : Dict α
  file_saver_params : Dict α
  vector_processing_params : Dict α
  classification_params : Dict α
  feature_extraction_params : Dict α
  evaluation_params : Dict α

/-- Embedding of `MainWindow.run_file_operation` (main_window.py 1102-1107):
copy the family defaults, apply the caller override if one was given, and
return the parameter dict handed to the new `FileWorker`. -/
def run_file_operation {α : Type} (cfg : Config α) (override : Option (Dict α)) : Dict α :=
  let base := cfg.file_operation_params
  match override with
  | some ov => dict_update base ov
  | none => base

/-- Embedding of `MainWindow.run_image_processing` (main_window.py 1109-1114). -/
def run_image_processing {α : Type} (cfg : Config α) (override : Option (Dict α)) : Dict α :=
  let base := cfg.image_processing_params
  match override with
  | some ov => dict_update base ov
  | none => base

/-- Embedding of `MainWindow.run_file_save` (main_window.py 1116-1121). -/
def run_file_save {α : Type} (cfg : Config α) (override : Option (Dict α)) : Dict α :=
  let base := cfg.file_saver_params
  match override with
  | some ov => dict_update base ov
  | none => base

/-- Embedding of `MainWindow.run_vector_processing` (main_window.py 1123-1128). -/
def run_vector_processing {α : Type} (cfg : Config α) (override : Option (Dict α)) : Dict α :=
  let base := cfg.vector_processing_params
  match override with
  | some ov => dict_update base ov
  | none => base

/-- Embedding of `MainWindow.run_classification` (main_window.py 1130-1135). -/
def run_classification {α : Type} (cfg : Config α) (override : Option (Dict α)) : Dict α :=
  let base := cfg.classification_params
  match override with
  | some ov => dict_update base ov
  | none => base

/-- Embedding of `MainWindow.run_feature_extraction` (main_window.py 1137-1142). -/
def run_feature_extraction {α : Type} (cfg : Config α) (override : Option (Dict α)) : Dict α :=
  let base := cfg.feature_extraction_params
  match override with
  | some ov => dict_update base ov
  | none => base

/-- Embedding of `MainWindow.run_evaluation` (main_window.py 1144-1149). -/
def run_evaluation {α : Type} (cfg : Config α) (override : Option (Dict α)) : Dict α :=
  let base := cfg.evaluation_params
  match override with
  | some ov => dict_update base ov
  | none => base

/-- The seven task families dispatched by `MainWindow`. -/
inductive TaskFamily where
  | file_operation
  | image_processing
  | file_saver
  | vector_processing
  | classification
  | feature_extraction
  | evaluation
deriving DecidableEq, Repr

/-- Default parameter dict of a family, as read from config by the
corresponding dispatch method. -/
def familyDefaults {α : Type} (fam : TaskFamily) (cfg : Config α) : Dict α :=
  match fam with
  | .file_operation => cfg.file_operation_params
  | .image_processing => cfg.image_processing_params
  | .file_saver => cfg.file_saver_params
  | .vector_processing => cfg.vector_processing_params
  | .classification => cfg.classification_params
  | .feature_extraction => cfg.feature_extraction_params
  | .evaluation => cfg.evaluation_params

/-- Parameter dict handed to the new Worker by the dispatch method of the
given family. -/
def familyParams {α : Type} (fam : TaskFamily) (cfg : Config α) (override : Option (Dict α)) :
    Dict α :=
  match fam with
  | .file_operation => run_file_operation cfg override
  | .image_processing => run_image_processing cfg override
  | .file_saver => run_file_save cfg override
  | .vector_processing => run_vector_processing cfg override
  | .classification => run_classification cfg override
  | .feature_extraction => run_feature_extraction cfg override
  | .evaluation => run_evaluation cfg override

/-- A background worker as seen by the cancellation code: its identity and
whether `isRunning()` currently holds. -/
structure Worker where
  wid : Nat
  running : Bool
deriving DecidableEq, Repr

/-- Orchestrator state relevant to cancellation: the single active-worker
slot `MainWindow.current_worker`. -/
structure OrchState where
  current_worker : Option Worker
deriving DecidableEq, Repr

/-- Embedding of `MainWindow.cancel_current_worker` (main_window.py
1090-1093): if the slot holds a worker and it is running, call
`terminate()` on it.  The returned state is the orchestrator state after
the call; the returned list records the ids of the workers that received a
hard termination request.  The source mutates no orchestrator attribute in
this method. -/
def cancel_current_worker (s : OrchState) : OrchState × List Nat :=
  match s.current_worker with
  | some w => if w.running then (s, [w.wid]) else (s, [])
  | none => (s, [])

/-- Embedding of `MainWindow._clear_current_worker` (main_window.py
1099-1100), connected to each worker's `finished` signal: set the slot to
`None`. -/
def clear_current_worker (s : OrchState) : OrchState :=
  { s with current_worker := none }

/-- Parsed JSON values, as produced by `json.load` on the band-math
history file. -/
inductive JVal where
  | jstr (s : String)
  | jarr (xs : List JVal)
  | jnum (n : Int)
  | jnull

/-- String items of a parsed JSON array; `none` when some element is not a
string (contents `save_history` never writes). -/
def historyStrings : List JVal → Option (List String)
  | [] => some []
  | .jstr s :: rest => (historyStrings rest).map (fun l => s :: l)
  | _ => none

/-- Embedding of the `load_history` closure of
`MainWindow.show_band_math_dialog` (main_window.py 828-839): a missing
file leaves the list untouched; otherwise the parsed JSON array replaces
the whole list.  Contents that are not an array of strings are never
produced by `save_history`; they take the dialog's exception path, which
is modelled as leaving the previous list in place. -/
def load_history (file : Option JVal) (model : List String) : List String :=
  match file with
  | none => model
  | some (.jarr xs) =>
    match historyStrings xs with
    | some items => items
    | none => model
  | some _ => model

/-- Embedding of the `save_history` closure of
`MainWindow.show_band_math_dialog` (main_window.py 841-848): the complete
current list is dumped as one JSON array of strings, overwriting the whole
file; the returned value is the new file content. -/
def save_history (model : List String) : JVal :=
  .jarr (model.map .jstr)

/-- Concrete defaults dict of the round-trip scenario:
`{"bands": [1, 2, 3]}`. -/
def bandsDefault : Dict (List Nat) :=
  fun k => if k = "bands" then some [1, 2, 3] else none

/-- Concrete override dict of the round-trip scenario: `{"bands": [4]}`. -/
def bandsOverride : Dict (List Nat) :=
  fun k => if k = "bands" then some [4] else none

/-- Config whose every family default is `{"bands": [1, 2, 3]}`, used to
state the round-trip scenario uniformly over families. -/
def bandsConfig : Config (List Nat) :=
  ⟨bandsDefault, bandsDefault, bandsDefault, bandsDefault, bandsDefault,
   bandsDefault, bandsDefault⟩

end MainWindow

namespace MainWindow

/-- Claim C1: for every task-family dispatch with a caller override
mapping, the parameter dict handed to the new Worker maps every key of the
override to the override's value, maps every key present only in the
family's defaults to the default's value, and contains no other keys; in
particular defaults `{"bands": [1,2,3]}` overridden with `{"bands": [4]}`
resolve to exactly `{"bands": [4]}`. -/
theorem dispatch_merge_precedence :
    (∀ (α : Type) (fam : TaskFamily) (cfg : Config α) (ov : Dict α) (k : String),
      (∀ v, ov k = some v → familyParams fam cfg (some ov) k = some v) ∧
      (ov k = none → familyParams fam cfg (some ov) k = familyDefaults fam cfg k) ∧
      (ov k = none → familyDefaults fam cfg k = none →
        familyParams fam cfg (some ov) k = none)) ∧
    (∀ (fam : TaskFamily) (k : String),
      familyParams fam bandsConfig (some bandsOverride) k = bandsOverride k) := by
  constructor
  · intro α fam cfg ov k
    have hm : ∀ base : Dict α,
        (∀ v, ov k = some v → dict_update base ov k = some v) ∧
        (ov k = none → dict_update base ov k = base k) ∧
        (ov k = none → base k = none → dict_update base ov k = none) := by
      intro base
      refine ⟨fun v hv => ?_, fun h => ?_, fun h h2 => ?_⟩ <;>
        simp [dict_update, *]
    cases fam <;>
      simpa [familyParams, familyDefaults, run_file_operation,
        run_image_processing, run_file_save, run_vector_processing,
        run_classification, run_feature_extraction, run_evaluation]
        using hm _
  · intro fam k
    cases fam <;>
      · show dict_update bandsDefault bandsOverride k = bandsOverride k
        by_cases hk : k = "bands" <;>
          simp [dict_update, bandsDefault, bandsOverride, hk]

/-- Witness for C1: at the round-trip scenario, the key present in both
the defaults and the override resolves to the override's value `[4]`. -/
theorem dispatch_merge_precedence_witness :
    MainWindow.bandsOverride "bands" = some [4] ∧
    familyParams TaskFamily.file_operation bandsConfig (some bandsOverride) "bands" =
      some [4] :=
  ⟨by simp [bandsOverride],
   (dispatch_merge_precedence.1 (List Nat) TaskFamily.file_operation bandsConfig
      bandsOverride "bands").1 [4] (by simp [bandsOverride])⟩

/-- Claim C2, counterexample: with a running worker in the slot,
`cancel_current_worker` does issue the hard termination request, but
immediately after the call returns the slot still references that worker
— it is not cleared, contradicting the claim. -/
theorem cancel_clears_slot_refuted :
    (cancel_current_worker ⟨some ⟨0, true⟩⟩).2 = [0] ∧
    (cancel_current_worker ⟨some ⟨0, true⟩⟩).1.current_worker ≠ none := by
  decide

/-- Claim C2, amended: if the active-worker slot holds a worker that is
still running, `cancel_current_worker` issues a hard termination request
to it and leaves the orchestrator state — including the slot — unchanged;
the slot is cleared only later, by the worker's `finished` signal invoking
`_clear_current_worker`. -/
theorem cancel_terminates_without_clearing :
    ∀ (s : OrchState) (w : Worker),
      s.current_worker = some w → w.running = true →
      cancel_current_worker s = (s, [w.wid]) := by
  intro s w hs hr
  simp [cancel_current_worker, hs, hr]

/-- Witness for the amended C2: a concrete running worker receives the
termination request and stays in the slot. -/
theorem cancel_terminates_without_clearing_witness :
    (⟨some ⟨7, true⟩⟩ : OrchState).current_worker = some ⟨7, true⟩ ∧
    (⟨7, true⟩ : Worker).running = true ∧
    cancel_current_worker ⟨some ⟨7, true⟩⟩ = (⟨some ⟨7, true⟩⟩, [7]) :=
  ⟨rfl, rfl, cancel_terminates_without_clearing _ _ rfl rfl⟩

/-- Claim C8: cancelling with no active worker is a no-op that raises no
error — when the slot is empty (never dispatched, or cleared by the
previous worker's finished event), and also when the tracked worker is no
longer running, no termination is issued and the orchestrator state is
unchanged. -/
theorem cancel_no_active_worker_noop :
    (∀ s : OrchState, s.current_worker = none → cancel_current_worker s = (s, [])) ∧
    (∀ s : OrchState,
      cancel_current_worker (clear_current_worker s) = (clear_current_worker s, [])) ∧
    (∀ (s : OrchState) (w : Worker),
      s.current_worker = some w → w.running = false →
      cancel_current_worker s = (s, [])) := by
  refine ⟨fun s hs => ?_, fun s => ?_, fun s w hs hr => ?_⟩
  · simp [cancel_current_worker, hs]
  · simp [cancel_current_worker, clear_current_worker]
  · simp [cancel_current_worker, hs, hr]

/-- Witness for C8: with an empty slot, cancel changes nothing and issues
no termination. -/
theorem cancel_no_active_worker_noop_witness :
    (⟨none⟩ : OrchState).current_worker = none ∧
    cancel_current_worker ⟨none⟩ = (⟨none⟩, []) :=
  ⟨rfl, cancel_no_active_worker_noop.1 ⟨none⟩ rfl⟩

/-- Auxiliary: decoding an array whose elements were all written by
`save_history` yields the original string list. -/
theorem historyStrings_map (l : List String) :
    historyStrings (l.map JVal.jstr) = some l := by
  induction l with
  | nil => rfl
  | cons a t ih => simp [historyStrings, ih]

/-- Claim C9: the band-math expression history is persisted as a single
JSON array of strings — saving writes the complete current list as one
array overwriting the whole file, and loading parses it back, so a save
followed by a load restores exactly the saved list in order, whatever the
list shown before the load. -/
theorem band_math_history_round_trip :
    ∀ (l m : List String), load_history (some (save_history l)) m = l := by
  intro l m
  simp [load_history, save_history, historyStrings_map]

end MainWindow

namespace SampleVerification

/-- A pandas dataframe restricted to the columns
`sample_verification.load_samples_from_file` inspects: each present column
is a list of integer labels, all of the same length in a well-formed
table. -/
structure Table where
  true_label : Option (List Int)
  CLASSIFIED : Option (List Int)
  predicted_label : Option (List Int)
  RASTERVALU : Option (List Int)
deriving DecidableEq, Repr

/-- Embedding of `load_samples_from_file` (sample_verification.py 24-46).
The on-disk file is represented by its extension together with the result
of the pandas read (`readRes`): either the parsed table or the message of
the raised read error.  The function checks the extension, maps
`CLASSIFIED`/`RASTERVALU` onto `true_label`/`predicted_label` when those
are absent, drops every row whose true label is `-1`, rejects an empty
remainder, and returns the paired label vectors in table order. -/
def load_samples_from_file (ext : String) (readRes : Except String Table) :
    Except String (List Int × List Int) :=
  if ext = ".csv" ∨ ext = ".xls" ∨ ext = ".xlsx" then
    match readRes with
    | .error e => .error e
    | .ok df =>
      let t? : Option (List Int) :=
        match df.true_label with
        | some c => some c
        | none => df.CLASSIFIED
      let p? : Option (List Int) :=
        match df.predicted_label with
        | some c => some c
        | none => df.RASTERVALU
      match t?, p? with
      | some t, some p =>
        let kept := (t.zip p).filter (fun q => q.1 != -1)
        if kept.isEmpty then
          .error "点表中没有任何已标注的真值，无法评估！"
        else
          .ok (kept.map Prod.fst, kept.map Prod.snd)
      | _, _ =>
        .error "样本表必须包含 true_label/CLASSIFIED 和 predicted_label/RASTERVALU 字段"
  else
    .error ("不支持的文件格式: " ++ ext ++ "，请用csv或xlsx")

/-- A table carrying exactly a `CLASSIFIED` (true label) and a
`RASTERVALU` (predicted label) column. -/
def mkCRTable (c r : List Int) : Table :=
  ⟨none, some c, none, some r⟩

end SampleVerification

/-- Decidable equality for collaborator-call outcomes, so that concrete
executions can be checked by evaluation. -/
instance instDecEqExcept {ε α : Type} [DecidableEq ε] [DecidableEq α] :
    DecidableEq (Except ε α) := fun a b =>
  match a, b with
  | .error x, .error y =>
    if h : x = y then isTrue (h ▸ rfl) else isFalse (fun hc => h (Except.error.inj hc))
  | .error _, .ok _ => isFalse (fun hc => Except.noConfusion hc)
  | .ok _, .error _ => isFalse (fun hc => Except.noConfusion hc)
  | .ok x, .ok y =>
    if h : x = y then isTrue (h ▸ rfl) else isFalse (fun hc => h (Except.ok.inj hc))

namespace RunEvaluation

/-- Outcomes of the external collaborator calls made by
`run_evaluation.run` (run_evaluation.py 40-151), in program order:
`os.makedirs`, loading the classification map, loading the ROI mask,
`extract_valid_samples` (returning the sample count), the confusion-matrix
block (compute, plot and `savefig`), `compute_overall_accuracy` together
with `compute_kappa` (returning the two formatted values that enter the
logs), and `generate_text_report`.  An `error` value carries the text of
the raised exception. -/
structure EvalOracle where
  mkdirRes : Except String Unit
  loadClassMapRes : Except String Unit
  loadRoiRes : Except String Unit
  extractRes : Except String Nat
  cmRes : Except String Unit
  oaKappaRes : Except String (String × String)
  reportRes : Except String Unit
deriving DecidableEq, Repr

/-- Embedding of `run_evaluation.run` (run_evaluation.py 40-151): the five
numbered stages (preceded by output-directory creation) execute in order,
each inside its own try/except that turns the first raise into an
immediate failure `TaskResult`.  The second component is the filesystem,
the list of files created so far, extended by `savefig` and by the text
report. -/
def run (o : EvalOracle) (class_map_path roi_mask_path output_dir : String)
    (fs : List String) : TaskResult × List String :=
  match o.mkdirRes with
  | .error e =>
    let msg := "无法创建输出目录 [" ++ output_dir ++ "]: " ++ e
    (⟨.failure, msg, [], [msg]⟩, fs)
  | .ok _ =>
    let logs := ["创建输出目录: " ++ output_dir]
    match o.loadClassMapRes with
    | .error e =>
      let msg := "加载分类图失败: " ++ e
      (⟨.failure, msg, [], logs ++ [msg]⟩, fs)
    | .ok _ =>
      let logs := logs ++ ["加载分类图: " ++ class_map_path]
      match o.loadRoiRes with
      | .error e =>
        let msg := "加载 ROI 掩膜失败: " ++ e
        (⟨.failure, msg, [], logs ++ [msg]⟩, fs)
      | .ok _ =>
        let logs := logs ++ ["加载 ROI 掩膜: " ++ roi_mask_path]
        match o.extractRes with
        | .error e =>
          let msg := "提取有效样本失败: " ++ e
          (⟨.failure, msg, [], logs ++ [msg]⟩, fs)
        | .ok n =>
          let logs := logs ++ ["提取有效样本: " ++ toString n ++ " 个"]
          match o.cmRes with
          | .error e =>
            let msg := "混淆矩阵计算或绘图失败: " ++ e
            (⟨.failure, msg, [], logs ++ [msg]⟩, fs)
          | .ok _ =>
            let cm_path := output_dir ++ "/confusion_matrix.png"
            let fs := fs ++ [cm_path]
            let logs := logs ++ ["混淆矩阵图保存: " ++ cm_path]
            let outputs := [cm_path]
            match o.oaKappaRes with
            | .error e =>
              let msg := "OA/Kappa 计算失败: " ++ e
              (⟨.failure, msg, outputs, logs ++ [msg]⟩, fs)
            | .ok p =>
              let logs := logs ++
                ["总体精度 (OA): " ++ p.1, "Kappa 系数: " ++ p.2]
              match o.reportRes with
              | .error e =>
                let msg := "生成评估报告失败: " ++ e
                (⟨.failure, msg, outputs, logs ++ [msg]⟩, fs)
              | .ok _ =>
                let report_path := output_dir ++ "/evaluation_report.txt"
                let fs := fs ++ [report_path]
                let logs := logs ++ ["评估报告生成: " ++ report_path]
                let outputs := outputs ++ [report_path]
                (⟨.success, "精度评估完成", outputs, logs⟩, fs)

/-- One stage of a staged pipeline, as the claim describes it: either it
completes, contributing its log lines and the artifacts it wrote, or it
fails with a message. -/
structure StageSpec where
  outcome : Except String (List String × List String)

/-- Staged execution exactly as the claim states it: stages run in list
order; the first failing stage aborts all later ones and yields a failure
result whose message is the stage's, whose logs are the logs of every
stage attempted up to and including the failing one, and whose outputs are
exactly the artifacts of the stages completed before the failure; if all
stages complete the result is a success over all logs and artifacts. -/
def specRun : List StageSpec → List String → List String → List String →
    TaskResult × List String
  | [], logs, outs, fs => (⟨.success, "精度评估完成", outs, logs⟩, fs)
  | s :: rest, logs, outs, fs =>
    match s.outcome with
    | .error m => (⟨.failure, m, outs, logs ++ [m]⟩, fs)
    | .ok p => specRun rest (logs ++ p.1) (outs ++ p.2) (fs ++ p.2)

/-- The fixed stage sequence of the evaluation pipeline in source order:
create the output directory, load the classification map, load the ROI
mask, extract valid samples, compute and save the confusion matrix,
compute OA and Kappa, generate the report. -/
def stagesOf (o : EvalOracle) (class_map_path roi_mask_path output_dir : String) :
    List StageSpec :=
  [⟨match o.mkdirRes with
    | .ok _ => .ok (["创建输出目录: " ++ output_dir], [])
    | .error e => .error ("无法创建输出目录 [" ++ output_dir ++ "]: " ++ e)⟩,
   ⟨match o.loadClassMapRes with
    | .ok _ => .ok (["加载分类图: " ++ class_map_path], [])
    | .error e => .error ("加载分类图失败: " ++ e)⟩,
   ⟨match o.loadRoiRes with
    | .ok _ => .ok (["加载 ROI 掩膜: " ++ roi_mask_path], [])
    | .error e => .error ("加载 ROI 掩膜失败: " ++ e)⟩,
   ⟨match o.extractRes with
    | .ok n => .ok (["提取有效样本: " ++ toString n ++ " 个"], [])
    | .error e => .error ("提取有效样本失败: " ++ e)⟩,
   ⟨match o.cmRes with
    | .ok _ => .ok (["混淆矩阵图保存: " ++ (output_dir ++ "/confusion_matrix.png")],
        [output_dir ++ "/confusion_matrix.png"])
    | .error e => .error ("混淆矩阵计算或绘图失败: " ++ e)⟩,
   ⟨match o.oaKappaRes with
    | .ok p => .ok (["总体精度 (OA): " ++ p.1, "Kappa 系数: " ++ p.2], [])
    | .error e => .error ("OA/Kappa 计算失败: " ++ e)⟩,
   ⟨match o.reportRes with
    | .ok _ => .ok (["评估报告生成: " ++ (output_dir ++ "/evaluation_report.txt")],
        [output_dir ++ "/evaluation_report.txt"])
    | .error e => .error ("生成评估报告失败: " ++ e)⟩]

end RunEvaluation

/-- Claim C4: the evaluation pipeline executes its stages in the fixed
order directory creation, load inputs, extract valid samples, confusion
matrix, OA/Kappa, report; the first stage to raise produces an immediate
failure TaskResult aborting all later stages, whose logs list every stage
attempted up to and including the failing one and whose outputs are
exactly the artifact paths produced by stages completed before the
failure. -/
theorem run_evaluation_stage_order :
    ∀ (o : RunEvaluation.EvalOracle) (cmp rmp outDir : String) (fs : List String),
      RunEvaluation.run o cmp rmp outDir fs =
        RunEvaluation.specRun (RunEvaluation.stagesOf o cmp rmp outDir) [] [] fs := by
  intro o cmp rmp outDir fs
  rcases o with ⟨m, lc, lr, ex, cm, ok, rp⟩
  cases m <;> cases lc <;> cases lr <;> cases ex <;> cases cm <;> cases ok <;> cases rp <;>
    simp [RunEvaluation.run, RunEvaluation.specRun, RunEvaluation.stagesOf]

namespace RunEvaluation

/-- Outcomes of the external collaborator calls made by
`run_from_samples_file` (run_evaluation.py 154-206): `os.makedirs`, the
pandas read of the samples table, and the two formatted metric values
(`metrics.accuracy`, macro-average F1) that enter the logs. -/
structure SFOracle where
  mkdirRes : Except String Unit
  readRes : Except String SampleVerification.Table
  oaStr : String
  f1Str : String
deriving DecidableEq, Repr

/-- Artifact paths written under `output_dir` for the requested output
formats: `png` yields the confusion-matrix image and its normalized
variant, `csv`, `json` and `txt` one file each; unrecognized formats write
nothing. -/
def formatArtifacts (output_dir pfx : String) (formats : List String) : List String :=
  formats.foldl
    (fun acc f =>
      if f = "png" then
        acc ++ [output_dir ++ "/" ++ pfx ++ ".png",
                output_dir ++ "/" ++ pfx ++ "_normalized.png"]
      else if f = "csv" then acc ++ [output_dir ++ "/" ++ pfx ++ ".csv"]
      else if f = "json" then acc ++ [output_dir ++ "/" ++ pfx ++ ".json"]
      else if f = "txt" then acc ++ [output_dir ++ "/" ++ pfx ++ "_report.txt"]
      else acc)
    []

/-- Modelled from the spec: `evaluate_from_samples_file` lives in
`src/processing/accuracy_evaluation/confusion_matrix.py`, which is not
among the sources.  Per the spec's evaluation-family interface it takes
the samples table as its sole input, excludes the unlabeled rows through
the sample-verification loader, computes the confusion-matrix metrics, and
writes one artifact set per requested entry of `formats` under
`output_dir` with the given file-name stem; any raise (unreadable file,
unsupported extension, fully unlabeled table) propagates to the caller.
Returns the two formatted metric values and the extended filesystem. -/
def evaluate_from_samples_file (o : SFOracle) (ext output_dir : String)
    (formats : List String) (pfx : String) (fs : List String) :
    Except String (String × String × List String) :=
  match SampleVerification.load_samples_from_file ext o.readRes with
  | .error e => .error e
  | .ok _ => .ok (o.oaStr, o.f1Str, fs ++ formatArtifacts output_dir pfx formats)

/-- Embedding of `run_from_samples_file` (run_evaluation.py 154-206):
create the output directory, then call `evaluate_from_samples_file`; any
raise becomes a failure `TaskResult`, and on success the outputs field is
the hard-coded list of the five expected artifact paths, independently of
`formats`. -/
def run_from_samples_file (o : SFOracle) (ext output_dir : String)
    (formats : List String) (pfx : String) (fs : List String) :
    TaskResult × List String :=
  match o.mkdirRes with
  | .error e =>
    let msg := "无法创建输出目录 [" ++ output_dir ++ "]: " ++ e
    (⟨.failure, msg, [], [msg]⟩, fs)
  | .ok _ =>
    let logs := ["创建输出目录: " ++ output_dir]
    match evaluate_from_samples_file o ext output_dir formats pfx fs with
    | .error e =>
      let msg := "精度评估流程失败: " ++ e
      (⟨.failure, msg, [], logs ++ [msg]⟩, fs)
    | .ok m =>
      let logs := logs ++
        ["总体精度 (OA): " ++ m.1, "宏平均F1: " ++ m.2.1]
      let outputs :=
        [output_dir ++ "/" ++ pfx ++ ".png",
         output_dir ++ "/" ++ pfx ++ "_normalized.png",
         output_dir ++ "/" ++ pfx ++ ".csv",
         output_dir ++ "/" ++ pfx ++ ".json",
         output_dir ++ "/" ++ pfx ++ "_report.txt"]
      (⟨.success, "基于采样点表的精度评估完成", outputs, logs⟩, m.2.2)

end RunEvaluation

namespace FeatureExtraction

/-- An abstract numpy array: only its dimensionality and shape matter to
the saving and aggregation logic. -/
structure FArr where
  ndim : Nat
  shape : List Nat
deriving DecidableEq, Repr

/-- A value of the `results` dict of `run_feature_extraction.run` at the
start of its saving section: a single array, a list of arrays (PCA
components), a sub-dict of arrays (GLCM and friends), or something else
(e.g. `None`), which the saving loop skips. -/
inductive FeatVal where
  | arr (a : FArr)
  | list (l : List FArr)
  | dict (d : List (String × FArr))
  | other
deriving DecidableEq, Repr

/-- One iteration of the saving loop of `run_feature_extraction.run`
(run_feature_extraction.py 225-258) over an entry of `results`: save the
entry's arrays as `.npy` files, record each file in outputs and on the
filesystem, and collect every 2-dimensional array for aggregation.  The
accumulator is (outputs, filesystem, collected 2-D features). -/
def saveStep (output_dir : String)
    (acc : List String × List String × List (String × FArr))
    (nv : String × FeatVal) :
    List String × List String × List (String × FArr) :=
  match nv.2 with
  | .arr a =>
    let fp := output_dir ++ "/" ++ nv.1 ++ ".npy"
    (acc.1 ++ [fp], acc.2.1 ++ [fp],
     if a.ndim == 2 then acc.2.2 ++ [(nv.1, a)] else acc.2.2)
  | .list l =>
    l.enum.foldl
      (fun acc2 ic =>
        let fp := output_dir ++ "/" ++ nv.1 ++ "_" ++ toString ic.1 ++ ".npy"
        (acc2.1 ++ [fp], acc2.2.1 ++ [fp],
         if ic.2.ndim == 2 then
           acc2.2.2 ++ [(nv.1 ++ "_" ++ toString ic.1, ic.2)]
         else acc2.2.2))
      acc
  | .dict d =>
    d.foldl
      (fun acc2 kv =>
        let fp := output_dir ++ "/" ++ nv.1 ++ "/" ++ kv.1 ++ ".npy"
        (acc2.1 ++ [fp], acc2.2.1 ++ [fp],
         if kv.2.ndim == 2 then
           acc2.2.2 ++ [(nv.1 ++ "_" ++ kv.1, kv.2)]
         else acc2.2.2))
      acc
  | .other => acc

/-- The saving loop over all entries of `results`, in dict order. -/
def saveLoop (output_dir : String) (results : List (String × FeatVal))
    (fs : List String) : List String × List String × List (String × FArr) :=
  results.foldl (saveStep output_dir) ([], fs, [])

/-- Outcome of the preparation section of `run_feature_extraction.run`
(run_feature_extraction.py 76-217): directory creation, band loading and
naming, and all feature computations up to the start of the saving
section.  On success it yields the logs accumulated so far and the entries
of the `results` dict; a raise yields the exception text together with the
logs accumulated before the raise. -/
structure FEOracle where
  prepRes : Except (String × List String) (List String × List (String × FeatVal))
deriving DecidableEq, Repr

/-- Body of `run_feature_extraction.run`, i.e. everything inside its
single try block (run_feature_extraction.py 76-296): preparation, the
saving loop, and the aggregation of the collected 2-D features into
`feature_all.npy` plus `feature_info.json` when their spatial shapes
agree.  A raise from the preparation section propagates. -/
def runBody (o : FEOracle) (output_dir : String) (fs : List String) :
    Except (String × List String) (TaskResult × List String) :=
  match o.prepRes with
  | .error p => .error p
  | .ok pr =>
    let logs := pr.1
    let sl := saveLoop output_dir pr.2 fs
    let outs := sl.1
    let fs2 := sl.2.1
    let feats := sl.2.2
    match feats with
    | [] =>
      let logs := logs ++ ["保存所有特征，共 " ++ toString outs.length ++ " 个文件"]
      .ok (⟨.success, "特征提取完成", outs, logs⟩, fs2)
    | f0 :: _ =>
      if feats.all (fun q => q.2.shape == f0.2.shape) then
        let fa := output_dir ++ "/feature_all.npy"
        let fi := output_dir ++ "/feature_info.json"
        let outs := outs ++ [fa, fi]
        let fs2 := fs2 ++ [fa, fi]
        let logs := logs ++
          ["生成聚合特征文件: feature_all.npy (" ++
             toString (f0.2.shape ++ [feats.length]) ++ ")",
           "特征数量: " ++ toString feats.length ++ ", 特征名称: " ++
             toString (feats.map Prod.fst),
           "保存所有特征，共 " ++ toString outs.length ++ " 个文件"]
        .ok (⟨.success, "特征提取完成", outs, logs⟩, fs2)
      else
        let logs := logs ++
          ["警告: 特征空间维度不一致，跳过聚合",
           "保存所有特征，共 " ++ toString outs.length ++ " 个文件"]
        .ok (⟨.success, "特征提取完成", outs, logs⟩, fs2)

/-- Embedding of `run_feature_extraction.run` (run_feature_extraction.py
72-303): the whole body runs inside one try block; a raise is caught,
logged as `错误: ...`, and converted into a failure `TaskResult` whose
message is the exception text verbatim. -/
def run (o : FEOracle) (output_dir : String) (fs : List String) :
    TaskResult × List String :=
  match runBody o output_dir fs with
  | .ok r => r
  | .error p => (⟨.failure, p.1, [], p.2 ++ ["错误: " ++ p.1]⟩, fs)

end FeatureExtraction

/-- Auxiliary: a string that starts with a non-empty piece is non-empty. -/
theorem strAppendNeEmpty {a : String} (b : String) (h : a ≠ "") : a ++ b ≠ "" := by
  intro hc
  apply h
  have hlen := congrArg String.length hc
  rw [String.length_append] at hlen
  have hz : ("" : String).length = 0 := rfl
  rw [hz] at hlen
  have h0 : a.length = 0 := by omega
  cases a with
  | mk data =>
    cases data with
    | nil => rfl
    | cons c cs => simp [String.length] at h0

/-- Samples-file oracle of a well-formed, fully labeled table, with the
caller restricting the output formats to `png` only. -/
def sfOraclePngOnly : RunEvaluation.SFOracle :=
  ⟨.ok (), .ok (SampleVerification.mkCRTable [1, 1, 0] [1, 0, 0]), "0.6667", "0.6667"⟩

/-- Claim C3, failing execution: calling the samples-file evaluation entry
point with `formats=["png"]` succeeds, yet its outputs list the csv
artifact `out/confusion_matrix.csv` even though no such file was created —
the outputs field is hard-coded to all five paths regardless of
`formats`, so a success result references artifacts that do not exist. -/
theorem success_outputs_missing_artifact :
    (RunEvaluation.run_from_samples_file sfOraclePngOnly ".csv" "out" ["png"]
        "confusion_matrix" []).1.status = TStatus.success ∧
    "out/confusion_matrix.csv" ∈
      (RunEvaluation.run_from_samples_file sfOraclePngOnly ".csv" "out" ["png"]
        "confusion_matrix" []).1.outputs ∧
    "out/confusion_matrix.csv" ∉
      (RunEvaluation.run_from_samples_file sfOraclePngOnly ".csv" "out" ["png"]
        "confusion_matrix" []).2 := by
  decide

/-- Claim C5: the task entry points never let a raise escape — any
exception from the body of `run_feature_extraction.run` and any exception
inside `run_from_samples_file` (from directory creation or from the
evaluation call, including nonexistent paths, unreadable files and
unsupported shapes surfacing there) is translated into a failure
`TaskResult` carrying the error message, and the entry point returns that
result instead of raising. -/
theorem task_entry_points_catch_raises :
    (∀ (o : FeatureExtraction.FEOracle) (outDir : String) (fs : List String)
        (e : String) (lgs : List String),
      FeatureExtraction.runBody o outDir fs = .error (e, lgs) →
      FeatureExtraction.run o outDir fs =
        (⟨.failure, e, [], lgs ++ ["错误: " ++ e]⟩, fs)) ∧
    (∀ (o : RunEvaluation.SFOracle) (ext outDir : String) (formats : List String)
        (pfx : String) (fs : List String) (e : String),
      o.mkdirRes = .ok () →
      RunEvaluation.evaluate_from_samples_file o ext outDir formats pfx fs = .error e →
      RunEvaluation.run_from_samples_file o ext outDir formats pfx fs =
        (⟨.failure, "精度评估流程失败: " ++ e, [],
          ["创建输出目录: " ++ outDir, "精度评估流程失败: " ++ e]⟩, fs)) ∧
    (∀ (o : RunEvaluation.SFOracle) (ext outDir : String) (formats : List String)
        (pfx : String) (fs : List String) (e : String),
      o.mkdirRes = .error e →
      RunEvaluation.run_from_samples_file o ext outDir formats pfx fs =
        (⟨.failure, "无法创建输出目录 [" ++ outDir ++ "]: " ++ e, [],
          ["无法创建输出目录 [" ++ outDir ++ "]: " ++ e]⟩, fs)) := by
  refine ⟨?_, ?_, ?_⟩
  · intro o outDir fs e lgs h
    simp [FeatureExtraction.run, h]
  · intro o ext outDir formats pfx fs e hmk hev
    simp [RunEvaluation.run_from_samples_file, hmk, hev]
  · intro o ext outDir formats pfx fs e hmk
    simp [RunEvaluation.run_from_samples_file, hmk]

/-- Samples-file oracle where the pandas read raises because the file does
not exist. -/
def sfOracleMissingFile : RunEvaluation.SFOracle :=
  ⟨.ok (), .error "No such file or directory: missing.csv", "0", "0"⟩

/-- Witness for C5: with a nonexistent samples file the evaluation call
raises, and the entry point returns the corresponding failure TaskResult
instead of raising. -/
theorem task_entry_points_catch_raises_witness :
    sfOracleMissingFile.mkdirRes = .ok () ∧
    RunEvaluation.evaluate_from_samples_file sfOracleMissingFile ".csv" "out" ["png"]
        "confusion_matrix" [] = .error "No such file or directory: missing.csv" ∧
    RunEvaluation.run_from_samples_file sfOracleMissingFile ".csv" "out" ["png"]
        "confusion_matrix" [] =
      (⟨.failure, "精度评估流程失败: " ++ "No such file or directory: missing.csv", [],
        ["创建输出目录: " ++ "out",
         "精度评估流程失败: " ++ "No such file or directory: missing.csv"]⟩, []) :=
  ⟨rfl, by decide,
   task_entry_points_catch_raises.2.1 sfOracleMissingFile ".csv" "out" ["png"]
     "confusion_matrix" [] "No such file or directory: missing.csv" rfl (by decide)⟩

/-- Feature-extraction oracle whose preparation section raises an
exception whose text is empty (e.g. an exception constructed with no
arguments in a collaborator), after the output directory was created. -/
def feOracleEmptyMsg : FeatureExtraction.FEOracle :=
  ⟨.error ("", ["创建输出目录: out"])⟩

/-- Claim C6, counterexample: the feature-extraction run copies the caught
exception's text verbatim into the message field, so an exception whose
text is empty yields a failure TaskResult with an empty message,
contradicting the claim that every failure message is non-empty. -/
theorem failure_message_empty_refuted :
    (FeatureExtraction.run feOracleEmptyMsg "out" []).1.status = TStatus.failure ∧
    (FeatureExtraction.run feOracleEmptyMsg "out" []).1.message = "" := by
  decide

/-- Claim C6, amended: every failure TaskResult of the two evaluation
pipelines carries a non-empty message (each failure path prepends a
non-empty description of the failing step); the feature-extraction run
instead copies the caught exception's text verbatim into the message, so
its failure message is non-empty exactly when the exception's text is. -/
theorem failure_message_nonempty_amended :
    (∀ (o : RunEvaluation.EvalOracle) (cmp rmp outDir : String) (fs : List String),
      (RunEvaluation.run o cmp rmp outDir fs).1.status = TStatus.failure →
      (RunEvaluation.run o cmp rmp outDir fs).1.message ≠ "") ∧
    (∀ (o : RunEvaluation.SFOracle) (ext outDir : String) (formats : List String)
        (pfx : String) (fs : List String),
      (RunEvaluation.run_from_samples_file o ext outDir formats pfx fs).1.status =
        TStatus.failure →
      (RunEvaluation.run_from_samples_file o ext outDir formats pfx fs).1.message ≠ "") ∧
    (∀ (o : FeatureExtraction.FEOracle) (outDir : String) (fs : List String)
        (e : String) (lgs : List String),
      FeatureExtraction.runBody o outDir fs = .error (e, lgs) →
      (FeatureExtraction.run o outDir fs).1.message = e) := by
  refine ⟨?_, ?_, ?_⟩
  · intro o cmp rmp outDir fs _
    rcases o with ⟨m, lc, lr, ex, cm, okk, rp⟩
    cases m <;> cases lc <;> cases lr <;> cases ex <;> cases cm <;> cases okk <;> cases rp <;>
      simp only [RunEvaluation.run] <;>
      (repeat' apply strAppendNeEmpty) <;> decide
  · intro o ext outDir formats pfx fs _
    rcases o with ⟨m, rr, oa, f1⟩
    cases m with
    | error e =>
      simp only [RunEvaluation.run_from_samples_file]
      repeat' apply strAppendNeEmpty
      decide
    | ok u =>
      cases hev : RunEvaluation.evaluate_from_samples_file ⟨.ok u, rr, oa, f1⟩ ext outDir
          formats pfx fs with
      | error e =>
        simp only [RunEvaluation.run_from_samples_file, hev]
        repeat' apply strAppendNeEmpty
        decide
      | ok m =>
        simp only [RunEvaluation.run_from_samples_file, hev]
        decide
  · intro o outDir fs e lgs h
    simp [FeatureExtraction.run, h]

/-- Evaluation oracle where loading the classification map raises. -/
def evalOracleFailLoad : RunEvaluation.EvalOracle :=
  ⟨.ok (), .error "file not found", .ok (), .ok 0, .ok (), .ok ("0", "0"), .ok ()⟩

/-- Witness for the amended C6: a concrete failing evaluation run yields a
failure with a non-empty message. -/
theorem failure_message_nonempty_amended_witness :
    (RunEvaluation.run evalOracleFailLoad "c.npy" "r.npy" "out" []).1.status =
      TStatus.failure ∧
    (RunEvaluation.run evalOracleFailLoad "c.npy" "r.npy" "out" []).1.message ≠ "" :=
  ⟨by decide,
   failure_message_nonempty_amended.1 evalOracleFailLoad "c.npy" "r.npy" "out" []
     (by decide)⟩

/-- Claim C7: when evaluation is driven by a samples table with
`CLASSIFIED` (true label) and `RASTERVALU` (predicted label) columns,
every row whose `CLASSIFIED` value is `-1` is excluded before any metric
is computed, and the returned label vectors are exactly the `CLASSIFIED`
and `RASTERVALU` values of the remaining rows in table order. -/
theorem load_samples_filters_unlabeled :
    ∀ (c r yt yp : List Int),
      SampleVerification.load_samples_from_file ".csv"
          (.ok (SampleVerification.mkCRTable c r)) = .ok (yt, yp) →
      yt = ((c.zip r).filter (fun q => q.1 != -1)).map Prod.fst ∧
      yp = ((c.zip r).filter (fun q => q.1 != -1)).map Prod.snd ∧
      ∀ x ∈ yt, x ≠ -1 := by
  intro c r yt yp h
  simp only [SampleVerification.load_samples_from_file,
    SampleVerification.mkCRTable] at h
  rw [if_pos (by decide)] at h
  split at h
  · simp at h
  · rename_i hne
    injection h with h
    injection h with h1 h2
    refine ⟨h1.symm, h2.symm, ?_⟩
    intro x hx
    rw [← h1] at hx
    simp only [List.mem_map, List.mem_filter] at hx
    obtain ⟨q, ⟨hq, hqp⟩, hqx⟩ := hx
    intro hc
    rw [hqx, hc] at hqp
    simp at hqp

/-- Witness for C7: for columns `CLASSIFIED=[1,1,0,-1]` and
`RASTERVALU=[1,0,0,1]` the loader drops the unlabeled row and evaluates
over exactly the remaining 3 samples `([1,1,0],[1,0,0])`. -/
theorem load_samples_filters_unlabeled_witness :
    SampleVerification.load_samples_from_file ".csv"
        (.ok (SampleVerification.mkCRTable [1, 1, 0, -1] [1, 0, 0, 1])) =
      .ok ([1, 1, 0], [1, 0, 0]) ∧
    ([1, 1, 0] : List Int) =
      ((([1, 1, 0, -1] : List Int).zip ([1, 0, 0, 1] : List Int)).filter
        (fun q => q.1 != -1)).map Prod.fst ∧
    ([1, 1, 0] : List Int).length = 3 :=
  ⟨by decide,
   (load_samples_filters_unlabeled [1, 1, 0, -1] [1, 0, 0, 1] [1, 1, 0] [1, 0, 0]
      (by decide)).1,
   by decide⟩

/-- Claim C10: a samples table in which, after excluding rows with true
label `-1`, no row remains makes the loader raise a ValueError rather than
return empty vectors, and consequently the samples-file evaluation over a
fully unlabeled table always returns a failure TaskResult, never a
success. -/
theorem unlabeled_table_evaluation_fails :
    ∀ (c r : List Int) (o : RunEvaluation.SFOracle) (outDir : String)
      (formats : List String) (pfx : String) (fs : List String),
      (∀ x ∈ c, x = -1) →
      o.readRes = .ok (SampleVerification.mkCRTable c r) →
      SampleVerification.load_samples_from_file ".csv" o.readRes =
        .error "点表中没有任何已标注的真值，无法评估！" ∧
      (RunEvaluation.run_from_samples_file o ".csv" outDir formats pfx fs).1.status =
        TStatus.failure := by
  intro c r o outDir formats pfx fs hall hread
  have hkept : ((c.zip r).filter (fun q => q.1 != -1)) = [] := by
    rw [List.filter_eq_nil_iff]
    intro q hq
    have hc : q.1 ∈ c := (List.of_mem_zip hq).1
    simp [hall _ hc]
  have hload : SampleVerification.load_samples_from_file ".csv" o.readRes =
      .error "点表中没有任何已标注的真值，无法评估！" := by
    rw [hread]
    simp [SampleVerification.load_samples_from_file, SampleVerification.mkCRTable, hkept]
  refine ⟨hload, ?_⟩
  rcases o with ⟨m, rr, oa, f1⟩
  cases m with
  | error e => simp [RunEvaluation.run_from_samples_file]
  | ok u =>
    simp [RunEvaluation.run_from_samples_file, RunEvaluation.evaluate_from_samples_file,
      hload]

/-- Samples-file oracle over a fully unlabeled table. -/
def sfOracleUnlabeled : RunEvaluation.SFOracle :=
  ⟨.ok (), .ok (SampleVerification.mkCRTable [-1, -1] [0, 1]), "0", "0"⟩

/-- Witness for C10: a concrete fully unlabeled two-row table makes the
loader raise and the entry point report failure. -/
theorem unlabeled_table_evaluation_fails_witness :
    (([-1, -1] : List Int).all (fun x => x == -1)) = true ∧
    SampleVerification.load_samples_from_file ".csv" sfOracleUnlabeled.readRes =
      .error "点表中没有任何已标注的真值，无法评估！" ∧
    (RunEvaluation.run_from_samples_file sfOracleUnlabeled ".csv" "out" ["png"]
        "confusion_matrix" []).1.status = TStatus.failure := by
  refine ⟨by decide, ?_, ?_⟩
  · exact (unlabeled_table_evaluation_fails [-1, -1] [0, 1] sfOracleUnlabeled "out"
      ["png"] "confusion_matrix" [] (by decide) rfl).1
  · exact (unlabeled_table_evaluation_fails [-1, -1] [0, 1] sfOracleUnlabeled "out"
      ["png"] "confusion_matrix" [] (by decide) rfl).2
